import Mathlib

/-!
# Verification of the viola-cli orchestrator (src/mod.ts)

A shallow embedding of the viola CLI front-end.  The external linting
engine `@hiisi/viola` (`loadConfig`, `runViola`, `discoverPlugins`,
`formatResults`, the process-wide `registry`) is an opaque collaborator:
each call is modelled as an oracle supplied to the orchestrator, and a
call that may throw returns `Except JsError _`.  The own logic of the orchestrator
(`registerBuilderLinters`, `listLinters`, `run`,
`runWithLoadedConfig`, `main`) is translated statement by statement from
`src/mod.ts`.  Console output, engine invocations, plugin-discovery
calls, config-load calls and the linter registry are threaded explicitly
so that theorems can speak about them.
-/

namespace ViolaCli

/-- A JavaScript `Error` value: message plus optional stack trace. -/
structure JsError where
  message : String
  stack : Option String
deriving Repr, DecidableEq

/-- The issue catalog of a linter.  The CLI only ever takes `Object.keys(...)`
of it, so it is modelled by its list of keys. -/
structure IssueCatalog where
  keys : List String
deriving Repr, DecidableEq

/-- Metadata `linter.meta` as used by the CLI: `id` and `description`. -/
structure LinterMeta where
  id : String
  description : String
deriving Repr, DecidableEq

/-- Linters (`BaseLinter`) as consumed by the CLI: metadata plus an optional issue
catalog (`registerBuilderLinters` tests `if (linter.catalog)`). -/
structure BaseLinter where
  meta : LinterMeta
  catalog : Option IssueCatalog
deriving Repr, DecidableEq

/-- The declarative part of the resolved configuration returned by
`loadConfig`.  `includeDirs` models the source field `include` (a Lean
keyword); `linterConfig` is an opaque per-linter option bag passed
through verbatim, modelled as an association list. -/
structure ResolvedConfig where
  includeDirs : List String
  plugins : List String
  inherit : List String
  linterConfig : List (String × String)
deriving Repr, DecidableEq

/-- The grammar registry of the engine: either the one attached to a builder
config or the fresh one produced by `createGrammarRegistry()`. -/
inductive GrammarRegistry where
  | fresh
  | custom (tag : Nat)
deriving Repr, DecidableEq

/-- External engine constructor `createGrammarRegistry()`. -/
def createGrammarRegistry : GrammarRegistry := .fresh

/-- Declarative rule predicates attached to a builder config; opaque to
the CLI, passed through verbatim. -/
structure RuleSet where
  tag : Nat
deriving Repr, DecidableEq

/-- The programmatic (builder-style) configuration: already-constructed
linters, rules, and an optional grammar registry. -/
structure BuilderConfig where
  linters : List BaseLinter
  rules : Option RuleSet
  grammarRegistry : Option GrammarRegistry
deriving Repr, DecidableEq

/-- One consulted configuration source (provenance record). -/
structure ConfigSource where
  path : String
  type : String
deriving Repr, DecidableEq

/-- Result of `loadConfig`: resolved config, provenance, and the optional
builder config. -/
structure LoadResult where
  config : ResolvedConfig
  sources : List ConfigSource
  builderConfig : Option BuilderConfig
deriving Repr, DecidableEq

/-- The engine result consumed by the CLI: only `hasErrors` is read. -/
structure ViolaResults where
  hasErrors : Bool
deriving Repr, DecidableEq

/-- Result of `discoverPlugins`: the linters it resolved (bundles and
presets are not consumed by `run`). -/
structure DiscoveryResult where
  linters : List BaseLinter
deriving Repr, DecidableEq

/-- The `ViolaOptions` object handed to `runViola` (src/mod.ts lines
288-304).  `includeDirs` models the source field `include`. -/
structure ViolaOptions where
  projectRoot : String
  includeDirs : List String
  plugins : List String
  inherit : List String
  linterConfig : List (String × String)
  reportOnly : Bool
  verbose : Bool
  parallel : Bool
  only : Option (List String)
  skip : Option (List String)
  rules : Option RuleSet
  catalogs : Option (List (String × IssueCatalog))
  grammarRegistry : GrammarRegistry
deriving Repr, DecidableEq

/-- Parsed CLI arguments (the `CliArgs` interface after `parseArgs` with
the alias table h→help, r→report-only, v→verbose, l→list, p→project,
i→include, c→config).  `includeFlag` models the source field `include`;
`reportOnly` models `"report-only"`. -/
structure CliArgs where
  help : Bool
  reportOnly : Bool
  verbose : Bool
  list : Bool
  parallel : Bool
  only : Option String
  skip : Option String
  includeFlag : Option String
  project : Option String
  config : Option String
  plugins : Option String
deriving Repr, DecidableEq

/-- Oracles for the external `@hiisi/viola` engine, worth one
invocation: the outcome of `loadConfig`, the behaviour of `discoverPlugins`
and `runViola` (either of which may throw), and `formatResults`. -/
structure Engine where
  loadConfig : Except JsError LoadResult
  discoverPlugins : List String → Except JsError DiscoveryResult
  runViola : ViolaOptions → Except JsError ViolaResults
  formatResults : ViolaResults → String

/-- JavaScript truthiness of an optional string flag (`undefined` and
`""` are falsy). -/
def strOptTruthy : Option String → Bool
  | none => false
  | some s => !(s == "")

/-- JS `String.prototype.split(",")` on the character list: split at
every comma, keeping empty segments (`"".split(",")` is `[""]` and
`",".split(",")` is `["",""]`). -/
def splitCommaAux : List Char → List Char → List (List Char)
  | [], acc => [acc.reverse]
  | c :: cs, acc =>
    if c = ',' then acc.reverse :: splitCommaAux cs []
    else splitCommaAux cs (c :: acc)

/-- JS `s.split(",")`. -/
def splitComma (s : String) : List String :=
  (splitCommaAux s.data []).map String.mk

/-- JS `String.prototype.trim`: drop whitespace from both ends. -/
def trimString (s : String) : String :=
  String.mk (((s.data.dropWhile Char.isWhitespace).reverse.dropWhile
    Char.isWhitespace).reverse)

/-- Comma-split-and-trim `s.split(",").map(s => s.trim())` (src/mod.ts lines 216 etc.). -/
def splitTrim (s : String) : List String :=
  (splitComma s).map trimString

/-- Path resolution (`resolve` from `@std/path`), external to this repository; path
normalisation is immaterial to every claim, so it is modelled as the
identity on the given path. -/
def resolvePath (s : String) : String := s

/-- JS `str.padEnd(n)` — pad with spaces on the right up to length `n`. -/
def padEnd (s : String) (n : Nat) : String :=
  s ++ String.mk (List.replicate (n - s.length) ' ')

/-- JS `"=".repeat(60)` etc. -/
def strRepeat (s : String) (n : Nat) : String :=
  String.join (List.replicate n s)

/-- Check `builderConfig && builderConfig.linters.length > 0` (src/mod.ts line
230), as a boolean. -/
def hasBuilderLinters : Option BuilderConfig → Bool
  | some bc => bc.linters.length > 0
  | none => false

/-- Check `config.plugins.length > 0 || cliArgs.plugins` (src/mod.ts line
231), as a boolean (truthiness of the string flag). -/
def hasStringPlugins (config : ResolvedConfig) (cliArgs : CliArgs) : Bool :=
  config.plugins.length > 0 || strOptTruthy cliArgs.plugins

/-- Resolution of `include` (src/mod.ts lines 215-219): comma-split CLI
value if the flag is truthy, else the `include` of the config if non-empty,
else the hardcoded default. -/
def resolveInclude (flag : Option String) (cfgInclude : List String) : List String :=
  if strOptTruthy flag then splitTrim (flag.getD "")
  else if cfgInclude.length > 0 then cfgInclude
  else ["src", "packages", "app"]

/-- Resolution of `only`/`skip` (src/mod.ts lines 221-227): comma-split if
truthy, else `undefined`. -/
def resolveCommaOpt (flag : Option String) : Option (List String) :=
  if strOptTruthy flag then some (splitTrim (flag.getD "")) else none

/-- String-plugin resolution (src/mod.ts lines 246-248): comma-split CLI
`--plugins` value if truthy, else the plugin list of the config. -/
def resolvePlugins (flag : Option String) (cfgPlugins : List String) : List String :=
  if strOptTruthy flag then splitTrim (flag.getD "") else cfgPlugins

/-- JS `Map.set` on an association list: replace in place if the key is
present, else append. -/
def mapSet (m : List (String × IssueCatalog)) (k : String) (v : IssueCatalog) :
    List (String × IssueCatalog) :=
  if m.any (fun p => p.1 == k) then
    m.map (fun p => if p.1 == k then (k, v) else p)
  else m ++ [(k, v)]

/-- The loop body of `registerBuilderLinters` (src/mod.ts lines 128-133):
register each linter into the registry in order, and `catalogs.set` its
catalog when present. -/
def registerLoop :
    List BaseLinter → List BaseLinter → List (String × IssueCatalog) →
    List BaseLinter × List (String × IssueCatalog)
  | [], reg, cats => (reg, cats)
  | l :: ls, reg, cats =>
    registerLoop ls (reg ++ [l])
      (match l.catalog with
       | some c => mapSet cats l.meta.id c
       | none => cats)

/-- Function `registerBuilderLinters` (src/mod.ts lines 123-136): registers every
builder linter into the (threaded) registry and returns the collected
catalogs.  The registry state is explicit instead of the module-level
singleton. -/
def registerBuilderLinters (linters : List BaseLinter) (reg : List BaseLinter) :
    List BaseLinter × List (String × IssueCatalog) :=
  registerLoop linters reg []

theorem registerLoop_fst (ls : List BaseLinter) :
    ∀ reg cats, (registerLoop ls reg cats).1 = reg ++ ls := by
  induction ls with
  | nil => intro reg cats; simp [registerLoop]
  | cons l ls ih => intro reg cats; simp [registerLoop, ih]

/-- The registry after `registerBuilderLinters` is the old registry with
the builder linters appended in order. -/
theorem registerBuilderLinters_fst (linters reg : List BaseLinter) :
    (registerBuilderLinters linters reg).1 = reg ++ linters := by
  simp [registerBuilderLinters, registerLoop_fst]

/-- The help text printed by `showHelp()` (src/mod.ts lines 69-117), one
`console.log` call. -/
def helpText : String :=
  "\nviola - Convention linter for codebases\n\n" ++
  "Checks for convention violations — naming patterns, file organization,\n" ++
  "code duplication, and project-specific rules.\n\n" ++
  "USAGE:\n  viola [options]\n  deno run -A jsr:@hiisi/viola-cli [options]\n\n" ++
  "OPTIONS:\n" ++
  "  --help, -h           Show this help message\n" ++
  "  --report-only, -r    Report issues without failing (exit code 0)\n" ++
  "  --verbose, -v        Verbose output\n" ++
  "  --parallel           Run checkers in parallel\n" ++
  "  --only <linters>     Only run specified linters (comma-separated)\n" ++
  "  --skip <linters>     Skip specified linters (comma-separated)\n" ++
  "  --list, -l           List all available linters (requires plugins loaded)\n" ++
  "  --include, -i <dirs> Directories to include (comma-separated)\n" ++
  "  --project, -p <path> Project root directory (default: cwd)\n" ++
  "  --config, -c <path>  Path to config file\n" ++
  "  --plugins <plugins>  Plugin specifiers to load (comma-separated, overrides config)\n\n" ++
  "CONFIGURATION:\n" ++
  "  Config is loaded from viola.config.ts (preferred) or deno.json.\n  \n" ++
  "  Example viola.config.ts:\n" ++
  "    import \x7b viola \x7d from \"@hiisi/viola\";\n" ++
  "    import defaultLints from \"@hiisi/viola-default-lints\";\n    \n" ++
  "    export default viola()\n" ++
  "      .use(defaultLints)  // plugin adds linters + default rules\n" ++
  "      .rule(report.off, when.in(\"**/*_test.ts\"));  // your overrides\n\n" ++
  "EXAMPLES:\n" ++
  "  viola\n  viola --report-only\n  viola --only type-location,similar-functions\n" ++
  "  viola --skip duplicate-strings\n  viola --verbose\n  viola --project /path/to/project\n" ++
  "  viola --plugins @hiisi/viola-default-lints\n\n" ++
  "PLUGINS:\n" ++
  "  Viola has no built-in linters. Install @hiisi/viola-default-lints for\n" ++
  "  the standard linter set, or create your own plugins.\n"

/-- The `console.log` lines of the no-plugins branch of `listLinters`
(src/mod.ts lines 157-163; the final entry is the bare `console.log()`). -/
def noPluginsListLines : List String :=
  ["\nNo plugins configured.",
   "Create a viola.config.ts with .use() to add linters.",
   "\nExample:",
   "  import \x7b viola \x7d from \x27@hiisi/viola\x27;",
   "  import \x7b defaultLints \x7d from \x27@hiisi/viola-default-lints\x27;",
   "  export default viola().use(defaultLints);",
   ""]

/-- The `console.error` lines of the no-plugins branch of `run`
(src/mod.ts lines 234-241). -/
def noPluginsErrLines : List String :=
  ["Error: No plugins configured.",
   "Create a viola.config.ts with .use() to add linters.",
   "\nExample:",
   "  import \x7b viola \x7d from \x27@hiisi/viola\x27;",
   "  import \x7b defaultLints \x7d from \x27@hiisi/viola-default-lints\x27;",
   "  export default viola().use(defaultLints);"]

/-- The `TypeError` JavaScript raises for `Object.keys(undefined)` (the
per-linter display line reads `linter.catalog` without a presence
check). -/
def objectKeysUndefinedError : JsError :=
  ⟨"Cannot convert undefined or null to object", none⟩

/-- One display row of the linter listing (src/mod.ts lines 180-184):
`  <id padded>  (<n> issues)  <description>`; throws if the linter has
no catalog. -/
def linterLine (maxIdLen : Nat) (l : BaseLinter) : Except JsError String :=
  match l.catalog with
  | none => .error objectKeysUndefinedError
  | some c =>
    .ok ("  " ++ padEnd l.meta.id maxIdLen ++ "  (" ++ toString c.keys.length ++
      " issues)  " ++ l.meta.description)

/-- The listing of all registered linters (src/mod.ts lines 167-187 and
377-390): "No linters found" when the registry is empty, else header,
one row per linter, and a total line. -/
def renderLinterList (linters : List BaseLinter) : Except JsError (List String) :=
  if linters.length = 0 then .ok ["\nNo linters found in loaded plugins."]
  else
    let maxIdLen := (linters.map (fun l => l.meta.id.length)).foldl max 0
    match linters.mapM (linterLine maxIdLen) with
    | .error e => .error e
    | .ok lines =>
      .ok (["\nAvailable linters:\n"] ++ lines ++
        ["\nTotal: " ++ toString linters.length ++ " linters loaded\n"])

/-- Observable outcome of `listLinters`: stdout lines, the registry
afterwards, and the argument of each `discoverPlugins` call. -/
structure ListOutcome where
  out : List String
  reg : List BaseLinter
  discoverCalls : List (List String)
deriving Repr, DecidableEq

/-- Function `listLinters` (src/mod.ts lines 138-188): load config, register
linters from the builder config or from discovered string plugins, then
print the listing; with neither source it prints the remediation text
and returns. -/
def listLinters (eng : Engine) (verbose : Bool) (reg0 : List BaseLinter) :
    Except JsError ListOutcome :=
  match eng.loadConfig with
  | .error e => .error e
  | .ok lr =>
    if hasBuilderLinters lr.builderConfig then
      let reg1 :=
        (registerBuilderLinters ((lr.builderConfig.map (fun bc => bc.linters)).getD []) reg0).1
      match renderLinterList reg1 with
      | .error e => .error e
      | .ok lines => .ok ⟨lines, reg1, []⟩
    else if lr.config.plugins.length > 0 then
      match eng.discoverPlugins lr.config.plugins with
      | .error e => .error e
      | .ok disc =>
        let reg1 := reg0 ++ disc.linters
        match renderLinterList reg1 with
        | .error e => .error e
        | .ok lines => .ok ⟨"\nLoading plugins..." :: lines, reg1, [lr.config.plugins]⟩
    else
      .ok ⟨noPluginsListLines, reg0, []⟩

/-- Observable outcome of one `run`/`runWithLoadedConfig` invocation:
exit code, stdout and stderr lines, the options of each `runViola`
call, the argument of each `discoverPlugins` call, the number of
`loadConfig` calls, and the registry afterwards. -/
structure RunResult where
  exit : Nat
  out : List String
  err : List String
  engineCalls : List ViolaOptions
  discoverCalls : List (List String)
  loadCalls : Nat
  reg : List BaseLinter
deriving Repr, DecidableEq

/-- The verbose configuration header of `run` (src/mod.ts lines
251-278); empty when not verbose. -/
def verboseHeader (cliArgs : CliArgs) (projectRoot : String)
    (includeList plugins : List String) (builderConfig : Option BuilderConfig)
    (config : ResolvedConfig) (sources : List ConfigSource)
    (only skip : Option (List String)) : List String :=
  if cliArgs.verbose then
    ["\n" ++ strRepeat "=" 60, "VIOLA", strRepeat "=" 60, "\nConfiguration:",
     "  Project root: " ++ projectRoot,
     "  Include: " ++ String.intercalate ", " includeList] ++
    (if hasBuilderLinters builderConfig then
       ["  Linters: " ++
         toString (((builderConfig.map (fun bc => bc.linters)).getD []).length) ++
         " from viola.config.ts"]
     else ["  Plugins: " ++ String.intercalate ", " plugins]) ++
    ["  Report only: " ++ toString cliArgs.reportOnly] ++
    (if config.inherit.length > 0 then
       ["  Inherit: " ++ String.intercalate ", " config.inherit] else []) ++
    (match only with | some o => ["  Only: " ++ String.intercalate ", " o] | none => []) ++
    (match skip with | some s => ["  Skip: " ++ String.intercalate ", " s] | none => []) ++
    (if sources.length > 0 then
       "\n  Config sources:" ::
         sources.map (fun s => "    - " ++ s.path ++ " (" ++ s.type ++ ")")
     else []) ++
    [""]
  else []

/-- The `ViolaOptions` object built by `run` (src/mod.ts lines 288-304)
and `runWithLoadedConfig` (lines 428-442): empty plugin-specifier list
when builder linters were registered directly, rules/catalogs/grammar
registry forwarded from the builder config. -/
def buildOptions (cliArgs : CliArgs) (projectRoot : String)
    (includeList plugins : List String) (config : ResolvedConfig)
    (builderConfig : Option BuilderConfig) (only skip : Option (List String))
    (catalogs : Option (List (String × IssueCatalog))) : ViolaOptions :=
  { projectRoot := projectRoot
    includeDirs := includeList
    plugins := if hasBuilderLinters builderConfig then [] else plugins
    inherit := config.inherit
    linterConfig := config.linterConfig
    reportOnly := cliArgs.reportOnly
    verbose := cliArgs.verbose
    parallel := cliArgs.parallel
    only := only
    skip := skip
    rules := builderConfig.bind (fun bc => bc.rules)
    catalogs := catalogs
    grammarRegistry :=
      (builderConfig.bind (fun bc => bc.grammarRegistry)).getD createGrammarRegistry }

/-- The stderr lines of the catch block (src/mod.ts lines 313-323):
"\nError:" and the message, plus the stack when verbose and the stack
is truthy. -/
def catchErrLines (cliArgs : CliArgs) (e : JsError) : List String :=
  ["\nError:", e.message] ++
    (if cliArgs.verbose && strOptTruthy e.stack then
       ["\nStack trace:", e.stack.getD ""] else [])

/-- Function `run` (src/mod.ts lines 193-324), translated statement by statement.
Help short-circuits; `--list` delegates to `listLinters`; otherwise
config is loaded (an exception here is NOT caught — the try block only
starts at line 280), CLI overrides are resolved, the no-plugins case
errors out with exit 1, builder linters are registered, and the engine
is invoked inside try/catch. -/
def run (cliArgs : CliArgs) (cwd : String) (eng : Engine) (reg0 : List BaseLinter) :
    Except JsError RunResult :=
  if cliArgs.help then
    .ok ⟨0, [helpText], [], [], [], 0, reg0⟩
  else
    let projectRoot := resolvePath (cliArgs.project.getD cwd)
    if cliArgs.list then
      match listLinters eng cliArgs.verbose reg0 with
      | .error e => .error e
      | .ok lo => .ok ⟨0, lo.out, [], [], lo.discoverCalls, 1, lo.reg⟩
    else
      match eng.loadConfig with
      | .error e => .error e
      | .ok lr =>
        let config := lr.config
        let builderConfig := lr.builderConfig
        let includeList := resolveInclude cliArgs.includeFlag config.includeDirs
        let only := resolveCommaOpt cliArgs.only
        let skip := resolveCommaOpt cliArgs.skip
        if !hasBuilderLinters builderConfig && !hasStringPlugins config cliArgs then
          .ok ⟨1, [], noPluginsErrLines, [], [], 1, reg0⟩
        else
          let plugins := resolvePlugins cliArgs.plugins config.plugins
          let header :=
            verboseHeader cliArgs projectRoot includeList plugins builderConfig config
              lr.sources only skip
          let reg1 :=
            if hasBuilderLinters builderConfig then
              (registerBuilderLinters ((builderConfig.map (fun bc => bc.linters)).getD []) reg0).1
            else reg0
          let catalogs :=
            if hasBuilderLinters builderConfig then
              some (registerBuilderLinters ((builderConfig.map (fun bc => bc.linters)).getD []) reg0).2
            else none
          let options :=
            buildOptions cliArgs projectRoot includeList plugins config builderConfig
              only skip catalogs
          match eng.runViola options with
          | .ok results =>
            .ok ⟨if results.hasErrors && !cliArgs.reportOnly then 1 else 0,
                 header ++ [eng.formatResults results], [], [options], [], 1, reg1⟩
          | .error e =>
            .ok ⟨1, header, catchErrLines cliArgs e, [options], [], 1, reg1⟩

/-- Function `runWithLoadedConfig` (src/mod.ts lines 330-460): like `run`, but
config is loaded (with the preloaded module) before the `--list` check,
the `--list` no-plugins branch returns exit code 1, the no-plugins
error prints only two lines, and there is no verbose header. -/
def runWithLoadedConfig (cliArgs : CliArgs) (cwd : String) (eng : Engine)
    (reg0 : List BaseLinter) : Except JsError RunResult :=
  if cliArgs.help then
    .ok ⟨0, [helpText], [], [], [], 0, reg0⟩
  else
    let projectRoot := resolvePath (cliArgs.project.getD cwd)
    match eng.loadConfig with
    | .error e => .error e
    | .ok lr =>
      let config := lr.config
      let builderConfig := lr.builderConfig
      if cliArgs.list then
        if hasBuilderLinters builderConfig then
          let reg1 :=
            (registerBuilderLinters ((builderConfig.map (fun bc => bc.linters)).getD []) reg0).1
          match renderLinterList reg1 with
          | .error e => .error e
          | .ok lines => .ok ⟨0, lines, [], [], [], 1, reg1⟩
        else if config.plugins.length > 0 then
          match eng.discoverPlugins config.plugins with
          | .error e => .error e
          | .ok disc =>
            let reg1 := reg0 ++ disc.linters
            match renderLinterList reg1 with
            | .error e => .error e
            | .ok lines => .ok ⟨0, "\nLoading plugins..." :: lines, [], [], [config.plugins], 1, reg1⟩
        else
          .ok ⟨1, ["\nNo plugins configured."], [], [], [], 1, reg0⟩
      else
        let includeList := resolveInclude cliArgs.includeFlag config.includeDirs
        let only := resolveCommaOpt cliArgs.only
        let skip := resolveCommaOpt cliArgs.skip
        if !hasBuilderLinters builderConfig && !hasStringPlugins config cliArgs then
          .ok ⟨1, [],
               ["Error: No plugins configured.",
                "Create a viola.config.ts with .use() to add linters."], [], [], 1, reg0⟩
        else
          let plugins := resolvePlugins cliArgs.plugins config.plugins
          let reg1 :=
            if hasBuilderLinters builderConfig then
              (registerBuilderLinters ((builderConfig.map (fun bc => bc.linters)).getD []) reg0).1
            else reg0
          let catalogs :=
            if hasBuilderLinters builderConfig then
              some (registerBuilderLinters ((builderConfig.map (fun bc => bc.linters)).getD []) reg0).2
            else none
          let options :=
            buildOptions cliArgs projectRoot includeList plugins config builderConfig
              only skip catalogs
          match eng.runViola options with
          | .ok results =>
            .ok ⟨if results.hasErrors && !cliArgs.reportOnly then 1 else 0,
                 [eng.formatResults results], [], [options], [], 1, reg1⟩
          | .error e =>
            .ok ⟨1, [], catchErrLines cliArgs e, [options], [], 1, reg1⟩

/-- Environment of one `main` invocation: the load origin of the process,
whether `Deno.stat(configPath)` succeeds, the outcomes of writing the
bridge script and spawning the child, whether the bridge-child config
module import (`import config from "file://..."`) succeeds, the engine oracles of the
child and of the in-process path, the working directory and the initial
registry. -/
structure MainEnv where
  isRemoteOrigin : Bool
  configFileExists : Bool
  writeRes : Except JsError Unit
  spawnRes : Except JsError Unit
  childConfigImportOk : Bool
  childEngine : Engine
  eng : Engine
  cwd : String
  reg0 : List BaseLinter

/-- Observable outcome of `main` at the process boundary: the process
exit code, an exception that escaped `main` uncaught (Deno then exits
1), whether a temporary bridge script was created and whether it still
exists after the process returns, whether the bridge child imported the
local config module, and the inner run results when available. -/
structure MainOutcome where
  exitCode : Nat
  uncaught : Option JsError
  tempCreated : Bool
  tempExistsAfter : Bool
  configModuleImported : Bool
  childRun : Option RunResult
  inProcessRun : Option RunResult
deriving Repr, DecidableEq

/-- Entry point `main` (src/mod.ts lines 469-516).  Remote origin with a config file
on disk: create a temp bridge script, write it, spawn the child (which
imports the config module and calls `runWithLoadedConfig` with a fresh
registry), then `Deno.exit(status.code)`.  Because `Deno.exit` inside
the `try` terminates the process immediately, the `finally` block does
NOT run on that path and the temp file survives; the `finally` cleanup
only runs when writing or spawning throws, in which case the exception
then escapes `main` uncaught (Deno exits 1).  Without a config file, or
with a local origin, `run` executes in-process. -/
def main (args : CliArgs) (env : MainEnv) : MainOutcome :=
  if env.isRemoteOrigin then
    if !env.configFileExists then
      match run args env.cwd env.eng env.reg0 with
      | .ok r => ⟨r.exit, none, false, false, false, none, some r⟩
      | .error e => ⟨1, some e, false, false, false, none, none⟩
    else
      match env.writeRes with
      | .error e => ⟨1, some e, true, false, false, none, none⟩
      | .ok _ =>
        match env.spawnRes with
        | .error e => ⟨1, some e, true, false, false, none, none⟩
        | .ok _ =>
          if env.childConfigImportOk then
            match runWithLoadedConfig args env.cwd env.childEngine [] with
            | .ok r => ⟨r.exit, none, true, true, true, some r, none⟩
            | .error _ => ⟨1, none, true, true, true, none, none⟩
          else ⟨1, none, true, true, false, none, none⟩
  else
    match run args env.cwd env.eng env.reg0 with
    | .ok r => ⟨r.exit, none, false, false, false, none, some r⟩
    | .error e => ⟨1, some e, false, false, false, none, none⟩

-- Concrete evaluations of the JS string helpers.
example : splitTrim "," = ["", ""] := by decide
example : splitTrim "a, b" = ["a", "b"] := by decide
example : splitTrim "" = [""] := by decide
example : strOptTruthy (some "") = false := rfl
example : strOptTruthy none = false := rfl
example : strOptTruthy (some "x") = true := rfl

/-- C1: For every engine result, the final exit code returned by `run`
is 0 if the `hasErrors` flag of the result is false or the report-only flag
is set, and 1 if `hasErrors` is true and report-only is not set. -/
theorem c1_exit_code_mapping (cliArgs : CliArgs) (cwd : String) (eng : Engine)
    (reg0 : List BaseLinter) (lr : LoadResult) (results : ViolaResults)
    (hhelp : cliArgs.help = false) (hlist : cliArgs.list = false)
    (hload : eng.loadConfig = .ok lr)
    (hsrc : (hasBuilderLinters lr.builderConfig || hasStringPlugins lr.config cliArgs) = true)
    (hviola : ∀ o, eng.runViola o = .ok results) :
    ∃ r, run cliArgs cwd eng reg0 = .ok r ∧
      ((results.hasErrors = false ∨ cliArgs.reportOnly = true) → r.exit = 0) ∧
      (results.hasErrors = true → cliArgs.reportOnly = false → r.exit = 1) := by
  have hguard :
      (!hasBuilderLinters lr.builderConfig && !hasStringPlugins lr.config cliArgs) = false := by
    cases h1 : hasBuilderLinters lr.builderConfig <;>
      cases h2 : hasStringPlugins lr.config cliArgs <;> simp_all
  simp only [run, hhelp, hlist, hload, hguard, Bool.false_eq_true, if_false, hviola]
  refine ⟨_, rfl, ?_, ?_⟩
  · rintro (h | h) <;> simp [h]
  · intro h1 h2; simp [h1, h2]

def c1Args : CliArgs :=
  ⟨false, false, false, false, false, none, none, none, none, none, some "pkg-a"⟩

def c1Load : LoadResult := ⟨⟨[], [], [], []⟩, [], none⟩

def c1Engine : Engine :=
  ⟨.ok c1Load, fun _ => .ok ⟨[]⟩, fun _ => .ok ⟨true⟩, fun _ => "formatted"⟩

/-- Witness for C1 at a concrete input: `--plugins pkg-a`, engine
reporting `hasErrors: true`, no report-only flag. -/
theorem c1_exit_code_mapping_witness :
    ∃ r, run c1Args "/cwd" c1Engine [] = .ok r ∧
      (((⟨true⟩ : ViolaResults).hasErrors = false ∨ c1Args.reportOnly = true) → r.exit = 0) ∧
      ((⟨true⟩ : ViolaResults).hasErrors = true → c1Args.reportOnly = false → r.exit = 1) :=
  c1_exit_code_mapping c1Args "/cwd" c1Engine [] c1Load ⟨true⟩ rfl rfl rfl rfl
    (fun _ => rfl)

/-- C2: When neither builder linters nor string plugin specifiers exist
(config `plugins` empty, `--plugins` absent or empty), `run` returns
exit code 1, prints the "No plugins configured." error with the example
config snippet on stderr, and never invokes the engine
(`engineCalls = []`). -/
theorem c2_no_plugins_configured_error (cliArgs : CliArgs) (cwd : String) (eng : Engine)
    (reg0 : List BaseLinter) (lr : LoadResult)
    (hhelp : cliArgs.help = false) (hlist : cliArgs.list = false)
    (hload : eng.loadConfig = .ok lr)
    (hbc : hasBuilderLinters lr.builderConfig = false)
    (hcfg : lr.config.plugins = [])
    (hcli : strOptTruthy cliArgs.plugins = false) :
    run cliArgs cwd eng reg0 = .ok ⟨1, [], noPluginsErrLines, [], [], 1, reg0⟩ ∧
    ("Error: " ++ "No plugins configured.") ∈ noPluginsErrLines := by
  have hsp : hasStringPlugins lr.config cliArgs = false := by
    simp [hasStringPlugins, hcfg, hcli]
  refine ⟨?_, by decide⟩
  simp [run, hhelp, hlist, hload, hbc, hsp]

def c2Args : CliArgs :=
  ⟨false, false, false, false, false, none, none, none, none, none, none⟩

def c2Engine : Engine :=
  ⟨.ok ⟨⟨[], [], [], []⟩, [], none⟩, fun _ => .ok ⟨[]⟩, fun _ => .ok ⟨false⟩, fun _ => ""⟩

/-- Witness for C2 at a concrete input: no flags, empty resolved
config, no builder config. -/
theorem c2_no_plugins_configured_error_witness :
    run c2Args "/cwd" c2Engine [] = .ok ⟨1, [], noPluginsErrLines, [], [], 1, []⟩ ∧
    ("Error: " ++ "No plugins configured.") ∈ noPluginsErrLines :=
  c2_no_plugins_configured_error c2Args "/cwd" c2Engine [] ⟨⟨[], [], [], []⟩, [], none⟩
    rfl rfl rfl rfl rfl rfl

/-- Master lemma: in a non-help, non-list invocation whose config load
succeeds and which has some linter source, `run` succeeds and invokes
the engine exactly once, with the options built from the resolved CLI
overrides; the registry gains the builder linters (if any) and
string-based discovery is never attempted. -/
theorem run_engine_options (cliArgs : CliArgs) (cwd : String) (eng : Engine)
    (reg0 : List BaseLinter) (lr : LoadResult)
    (hhelp : cliArgs.help = false) (hlist : cliArgs.list = false)
    (hload : eng.loadConfig = .ok lr)
    (hsrc : (hasBuilderLinters lr.builderConfig || hasStringPlugins lr.config cliArgs) = true) :
    ∃ r, run cliArgs cwd eng reg0 = .ok r ∧
      r.engineCalls =
        [buildOptions cliArgs (resolvePath (cliArgs.project.getD cwd))
          (resolveInclude cliArgs.includeFlag lr.config.includeDirs)
          (resolvePlugins cliArgs.plugins lr.config.plugins)
          lr.config lr.builderConfig
          (resolveCommaOpt cliArgs.only) (resolveCommaOpt cliArgs.skip)
          (if hasBuilderLinters lr.builderConfig then
            some (registerBuilderLinters
              ((lr.builderConfig.map (fun bc => bc.linters)).getD []) reg0).2
           else none)] ∧
      r.reg =
        (if hasBuilderLinters lr.builderConfig then
          (registerBuilderLinters
            ((lr.builderConfig.map (fun bc => bc.linters)).getD []) reg0).1
         else reg0) ∧
      r.discoverCalls = [] ∧ r.loadCalls = 1 := by
  have hguard :
      (!hasBuilderLinters lr.builderConfig && !hasStringPlugins lr.config cliArgs) = false := by
    cases h1 : hasBuilderLinters lr.builderConfig <;>
      cases h2 : hasStringPlugins lr.config cliArgs <;> simp_all
  simp only [run, hhelp, hlist, hload, hguard, Bool.false_eq_true, if_false]
  split
  · exact ⟨_, rfl, rfl, rfl, rfl, rfl⟩
  · exact ⟨_, rfl, rfl, rfl, rfl, rfl⟩

/-- The three spec-level cases of `include` resolution. -/
theorem resolveInclude_spec (flag : Option String) (cfg : List String) :
    (∀ s, flag = some s → s ≠ "" → resolveInclude flag cfg = splitTrim s) ∧
    ((flag = none ∨ flag = some "") → cfg ≠ [] → resolveInclude flag cfg = cfg) ∧
    ((flag = none ∨ flag = some "") → cfg = [] →
      resolveInclude flag cfg = ["src", "packages", "app"]) := by
  refine ⟨?_, ?_, ?_⟩
  · rintro s rfl hs
    simp [resolveInclude, strOptTruthy, beq_eq_false_iff_ne.mpr hs]
  · rintro (rfl | rfl) hcfg <;>
      simp [resolveInclude, strOptTruthy, List.length_pos.mpr hcfg]
  · rintro (rfl | rfl) rfl <;> simp [resolveInclude, strOptTruthy]

def c3Args : CliArgs :=
  ⟨false, false, false, false, false, none, none, some "", none, none, some "pkg-b"⟩

def c3Engine : Engine :=
  ⟨.ok ⟨⟨["cfgdir"], [], [], []⟩, [], none⟩, fun _ => .ok ⟨[]⟩,
   fun _ => .ok ⟨false⟩, fun _ => ""⟩

/-- C3 counterexample: with the `--include` flag present but given the
empty string, the claim predicts the engine receives the comma-split
CLI value `splitTrim "" = [""]`; the code treats the empty value as
falsy and passes the `include` of the config, `["cfgdir"]`, instead. -/
theorem c3_counterexample :
    c3Args.includeFlag = some "" ∧
    splitTrim "" = [""] ∧
    (run c3Args "/cwd" c3Engine []).toOption.map
      (fun r => r.engineCalls.map (fun o => o.includeDirs)) = some [["cfgdir"]] ∧
    (["cfgdir"] : List String) ≠ [""] := by
  exact ⟨rfl, by decide, rfl, by decide⟩

/-- C3 (amended): the include list passed to the engine is the
comma-split CLI `--include` value when the flag is present with a
non-empty value; a present-but-empty `--include` is treated as absent,
in which case the `include` of the config is used when non-empty, and
`["src","packages","app"]` otherwise. -/
theorem c3_include_resolution (cliArgs : CliArgs) (cwd : String) (eng : Engine)
    (reg0 : List BaseLinter) (lr : LoadResult)
    (hhelp : cliArgs.help = false) (hlist : cliArgs.list = false)
    (hload : eng.loadConfig = .ok lr)
    (hsrc : (hasBuilderLinters lr.builderConfig || hasStringPlugins lr.config cliArgs) = true) :
    ∃ r, run cliArgs cwd eng reg0 = .ok r ∧
      ∀ o ∈ r.engineCalls,
        (∀ s, cliArgs.includeFlag = some s → s ≠ "" → o.includeDirs = splitTrim s) ∧
        ((cliArgs.includeFlag = none ∨ cliArgs.includeFlag = some "") →
          lr.config.includeDirs ≠ [] → o.includeDirs = lr.config.includeDirs) ∧
        ((cliArgs.includeFlag = none ∨ cliArgs.includeFlag = some "") →
          lr.config.includeDirs = [] → o.includeDirs = ["src", "packages", "app"]) := by
  obtain ⟨r, hr, hcalls, -, -, -⟩ :=
    run_engine_options cliArgs cwd eng reg0 lr hhelp hlist hload hsrc
  refine ⟨r, hr, ?_⟩
  intro o ho
  rw [hcalls, List.mem_singleton] at ho
  subst ho
  have hdirs :
      (buildOptions cliArgs (resolvePath (cliArgs.project.getD cwd))
        (resolveInclude cliArgs.includeFlag lr.config.includeDirs)
        (resolvePlugins cliArgs.plugins lr.config.plugins)
        lr.config lr.builderConfig
        (resolveCommaOpt cliArgs.only) (resolveCommaOpt cliArgs.skip)
        (if hasBuilderLinters lr.builderConfig then
          some (registerBuilderLinters
            ((lr.builderConfig.map (fun bc => bc.linters)).getD []) reg0).2
         else none)).includeDirs =
      resolveInclude cliArgs.includeFlag lr.config.includeDirs := rfl
  rw [hdirs]
  obtain ⟨h1, h2, h3⟩ := resolveInclude_spec cliArgs.includeFlag lr.config.includeDirs
  exact ⟨h1, h2, h3⟩

def c3wArgs : CliArgs :=
  ⟨false, false, false, false, false, none, none, some "src2, lib", none, none, some "pkg-b"⟩

def c3wEngine : Engine :=
  ⟨.ok ⟨⟨["cfgdir"], [], [], []⟩, [], none⟩, fun _ => .ok ⟨[]⟩,
   fun _ => .ok ⟨false⟩, fun _ => ""⟩

/-- Witness for the amended C3 at a concrete input: `--include
"src2, lib"` with a non-empty config include. -/
theorem c3_include_resolution_witness :
    ∃ r, run c3wArgs "/cwd" c3wEngine [] = .ok r ∧
      ∀ o ∈ r.engineCalls,
        (∀ s, c3wArgs.includeFlag = some s → s ≠ "" → o.includeDirs = splitTrim s) ∧
        ((c3wArgs.includeFlag = none ∨ c3wArgs.includeFlag = some "") →
          (["cfgdir"] : List String) ≠ [] → o.includeDirs = ["cfgdir"]) ∧
        ((c3wArgs.includeFlag = none ∨ c3wArgs.includeFlag = some "") →
          (["cfgdir"] : List String) = [] → o.includeDirs = ["src", "packages", "app"]) :=
  c3_include_resolution c3wArgs "/cwd" c3wEngine [] ⟨⟨["cfgdir"], [], [], []⟩, [], none⟩
    rfl rfl rfl rfl

/-- C4: With a non-empty builder-config linter list, `run` registers
each of those linters directly into the registry (appended in order),
collects their issue catalogs into the options, invokes the engine with
an empty plugin-specifier list, and never attempts string-based
discovery (`discoverPlugins` is not called). -/
theorem c4_builder_linters_direct (cliArgs : CliArgs) (cwd : String) (eng : Engine)
    (reg0 : List BaseLinter) (lr : LoadResult) (bc : BuilderConfig)
    (hhelp : cliArgs.help = false) (hlist : cliArgs.list = false)
    (hload : eng.loadConfig = .ok lr)
    (hbc : lr.builderConfig = some bc) (hne : bc.linters ≠ []) :
    ∃ r, run cliArgs cwd eng reg0 = .ok r ∧
      r.reg = reg0 ++ bc.linters ∧
      r.discoverCalls = [] ∧
      ∃ o, r.engineCalls = [o] ∧ o.plugins = [] ∧
        o.catalogs = some (registerBuilderLinters bc.linters reg0).2 := by
  have hB : hasBuilderLinters lr.builderConfig = true := by
    rw [hbc]; simp [hasBuilderLinters, List.length_pos, hne]
  obtain ⟨r, hr, hcalls, hreg, hdisc, -⟩ :=
    run_engine_options cliArgs cwd eng reg0 lr hhelp hlist hload (by simp [hB])
  have hB' : hasBuilderLinters (some bc) = true := hbc ▸ hB
  refine ⟨r, hr, ?_, hdisc, ?_⟩
  · rw [hreg, if_pos hB, hbc]
    simp [registerBuilderLinters_fst]
  · refine ⟨_, hcalls, ?_, ?_⟩
    · simp [buildOptions, hB]
    · simp [buildOptions, hB, hbc, hB']

def c4LinterA : BaseLinter := ⟨⟨"lint-a", "checks a"⟩, some ⟨["a1", "a2"]⟩⟩
def c4LinterB : BaseLinter := ⟨⟨"lint-b", "checks b"⟩, none⟩

def c4Args : CliArgs :=
  ⟨false, false, false, false, false, none, none, none, none, none, none⟩

def c4Engine : Engine :=
  ⟨.ok ⟨⟨[], [], [], []⟩, [], some ⟨[c4LinterA, c4LinterB], none, none⟩⟩,
   fun _ => .ok ⟨[]⟩, fun _ => .ok ⟨false⟩, fun _ => ""⟩

/-- Witness for C4 at a concrete input: a builder config carrying two
linter instances. -/
theorem c4_builder_linters_direct_witness :
    ∃ r, run c4Args "/cwd" c4Engine [] = .ok r ∧
      r.reg = [] ++ [c4LinterA, c4LinterB] ∧
      r.discoverCalls = [] ∧
      ∃ o, r.engineCalls = [o] ∧ o.plugins = [] ∧
        o.catalogs = some (registerBuilderLinters [c4LinterA, c4LinterB] []).2 :=
  c4_builder_linters_direct c4Args "/cwd" c4Engine []
    ⟨⟨[], [], [], []⟩, [], some ⟨[c4LinterA, c4LinterB], none, none⟩⟩
    ⟨[c4LinterA, c4LinterB], none, none⟩ rfl rfl rfl rfl (by decide)

/-- C5: Without builder-config linters, a non-empty `--plugins` value
makes the engine receive exactly the comma-split, trimmed CLI value;
the `plugins` list of the declarative config (arbitrary here) is ignored. -/
theorem c5_cli_plugins_override (cliArgs : CliArgs) (cwd : String) (eng : Engine)
    (reg0 : List BaseLinter) (lr : LoadResult) (s : String)
    (hhelp : cliArgs.help = false) (hlist : cliArgs.list = false)
    (hload : eng.loadConfig = .ok lr)
    (hbc : hasBuilderLinters lr.builderConfig = false)
    (hp : cliArgs.plugins = some s) (hs : s ≠ "") :
    ∃ r, run cliArgs cwd eng reg0 = .ok r ∧
      ∃ o, r.engineCalls = [o] ∧ o.plugins = splitTrim s := by
  have htr : strOptTruthy cliArgs.plugins = true := by
    rw [hp]; simp [strOptTruthy, beq_eq_false_iff_ne.mpr hs]
  obtain ⟨r, hr, hcalls, -, -, -⟩ :=
    run_engine_options cliArgs cwd eng reg0 lr hhelp hlist hload
      (by simp [hasStringPlugins, htr])
  have htr' : strOptTruthy (some s) = true := hp ▸ htr
  refine ⟨r, hr, _, hcalls, ?_⟩
  simp [buildOptions, hbc, resolvePlugins, htr, hp, htr']

def c5Args : CliArgs :=
  ⟨false, false, false, false, false, none, none, none, none, none, some "pkg-b"⟩

def c5Engine : Engine :=
  ⟨.ok ⟨⟨[], ["pkg-a"], [], []⟩, [], none⟩, fun _ => .ok ⟨[]⟩,
   fun _ => .ok ⟨false⟩, fun _ => ""⟩

/-- Witness for C5 at a concrete input: config declares `pkg-a`, CLI
passes `--plugins pkg-b`; the engine receives only `pkg-b`. -/
theorem c5_cli_plugins_override_witness :
    ∃ r, run c5Args "/cwd" c5Engine [] = .ok r ∧
      ∃ o, r.engineCalls = [o] ∧ o.plugins = splitTrim "pkg-b" :=
  c5_cli_plugins_override c5Args "/cwd" c5Engine [] ⟨⟨[], ["pkg-a"], [], []⟩, [], none⟩
    "pkg-b" rfl rfl rfl rfl rfl (by decide)

def c6Args : CliArgs :=
  ⟨false, false, false, false, false, none, none, none, none, none, none⟩

def c6ChildEngine : Engine :=
  ⟨.ok ⟨⟨[], ["pkg-a"], [], []⟩, [], none⟩, fun _ => .ok ⟨[]⟩,
   fun _ => .ok ⟨false⟩, fun _ => "ok"⟩

def c6Env : MainEnv :=
  ⟨true, true, .ok (), .ok (), true, c6ChildEngine, c6ChildEngine, "/cwd", []⟩

/-- C6 (code bug): remote origin, config file present, bridge script
written and spawned successfully, child exits 0.  The exit code of the child
is forwarded, but because `Deno.exit(status.code)` inside the `try`
terminates the process before the `finally` block runs, the temporary
bridge script still exists after the process returns — contradicting
the claimed guaranteed cleanup on every exit path. -/
theorem c6_temp_file_leak :
    (main c6Args c6Env).tempCreated = true ∧
    (main c6Args c6Env).childRun.map (fun r => r.exit) = some 0 ∧
    (main c6Args c6Env).exitCode = 0 ∧
    (main c6Args c6Env).tempExistsAfter = true :=
  ⟨rfl, rfl, rfl, rfl⟩

def c7Err : JsError := ⟨"SyntaxError: Unexpected token in viola.config.ts", none⟩

def c7Args : CliArgs :=
  ⟨false, false, false, false, false, none, none, none, none, none, none⟩

def c7Engine : Engine :=
  ⟨.error c7Err, fun _ => .ok ⟨[]⟩, fun _ => .ok ⟨false⟩, fun _ => ""⟩

/-- C7 counterexample: when `loadConfig` throws (src/mod.ts line 209,
outside the `try` block that begins at line 280), the exception
escapes `run` uncaught — refuting "the orchestrator never lets any
exception (including one raised while loading configuration) escape". -/
theorem c7_counterexample :
    run c7Args "/cwd" c7Engine [] = .error c7Err := rfl

/-- C7 (amended): an exception thrown by the engine during `runViola`
is caught inside `run`, its message printed (plus its stack when
verbose and the stack is non-empty), and mapped to exit code 1; but an
exception raised while loading configuration propagates out of `run`
uncaught. -/
theorem c7_engine_exceptions_caught (cliArgs : CliArgs) (cwd : String)
    (engA engB : Engine) (reg0 : List BaseLinter) (lr : LoadResult)
    (err e : JsError)
    (hhelp : cliArgs.help = false) (hlist : cliArgs.list = false)
    (hloadA : engA.loadConfig = .ok lr)
    (hsrc : (hasBuilderLinters lr.builderConfig || hasStringPlugins lr.config cliArgs) = true)
    (hviolaA : ∀ o, engA.runViola o = .error err)
    (hloadB : engB.loadConfig = .error e) :
    (∃ r, run cliArgs cwd engA reg0 = .ok r ∧ r.exit = 1 ∧
      err.message ∈ r.err ∧
      (cliArgs.verbose = true → strOptTruthy err.stack = true →
        err.stack.getD "" ∈ r.err)) ∧
    run cliArgs cwd engB reg0 = .error e := by
  constructor
  · have hguard :
        (!hasBuilderLinters lr.builderConfig && !hasStringPlugins lr.config cliArgs) = false := by
      cases h1 : hasBuilderLinters lr.builderConfig <;>
        cases h2 : hasStringPlugins lr.config cliArgs <;> simp_all
    simp only [run, hhelp, hlist, hloadA, hguard, Bool.false_eq_true, if_false, hviolaA]
    refine ⟨_, rfl, rfl, ?_, ?_⟩
    · simp [catchErrLines]
    · intro hv hst
      simp [catchErrLines, hv, hst]
  · simp [run, hhelp, hlist, hloadB]

def c7wErr : JsError := ⟨"engine exploded", some "at runViola (mod.ts:306)"⟩

def c7wLoadErr : JsError := ⟨"config parse error", none⟩

def c7wArgs : CliArgs :=
  ⟨false, false, true, false, false, none, none, none, none, none, some "pkg-a"⟩

def c7wLoad : LoadResult := ⟨⟨[], [], [], []⟩, [], none⟩

def c7wEngineA : Engine :=
  ⟨.ok c7wLoad, fun _ => .ok ⟨[]⟩, fun _ => .error c7wErr, fun _ => ""⟩

def c7wEngineB : Engine :=
  ⟨.error c7wLoadErr, fun _ => .ok ⟨[]⟩, fun _ => .ok ⟨false⟩, fun _ => ""⟩

/-- Witness for the amended C7 at a concrete input: a verbose run whose
engine throws an error carrying a stack, and a second run whose config
load throws. -/
theorem c7_engine_exceptions_caught_witness :
    ((∃ r, run c7wArgs "/cwd" c7wEngineA [] = .ok r ∧ r.exit = 1 ∧
      c7wErr.message ∈ r.err ∧
      (c7wArgs.verbose = true → strOptTruthy c7wErr.stack = true →
        c7wErr.stack.getD "" ∈ r.err)) ∧
    run c7wArgs "/cwd" c7wEngineB [] = .error c7wLoadErr) :=
  c7_engine_exceptions_caught c7wArgs "/cwd" c7wEngineA c7wEngineB [] c7wLoad
    c7wErr c7wLoadErr rfl rfl rfl rfl (fun _ => rfl) rfl

def c8Args : CliArgs :=
  ⟨true, false, false, false, false, none, none, none, none, none, none⟩

def c8Engine : Engine :=
  ⟨.ok ⟨⟨[], [], [], []⟩, [], none⟩, fun _ => .ok ⟨[]⟩, fun _ => .ok ⟨false⟩, fun _ => ""⟩

def c8Env : MainEnv :=
  ⟨true, true, .ok (), .ok (), true, c8Engine, c8Engine, "/cwd", []⟩

/-- C8 counterexample: with `--help` under a remote origin and a config
file on disk, `main` takes the bridge path, whose runner script imports
the local config module before `runWithLoadedConfig` ever checks the
help flag — so help is printed and 0 forwarded, but configuration WAS
loaded, refuting "without loading any configuration … in both paths". -/
theorem c8_counterexample :
    c8Args.help = true ∧
    (main c8Args c8Env).exitCode = 0 ∧
    (main c8Args c8Env).configModuleImported = true ∧
    (main c8Args c8Env).childRun.map (fun r => r.out) = some [helpText] :=
  ⟨rfl, rfl, rfl, rfl⟩

/-- C8 (amended): `--help` (and its alias `-h`, folded into the parsed
`help` flag) prints the help text and exits 0 in both `run` and
`runWithLoadedConfig`, each before its own `loadConfig` call
(`loadCalls = 0`); but in the remote-origin bridge path the bridge
script imports the config module first, so configuration loading is
not skipped there (with a successful import the child still prints
help and exit 0 is forwarded). -/
theorem c8_help_short_circuit (cliArgs : CliArgs) (cwd : String) (eng : Engine)
    (reg0 : List BaseLinter) (env : MainEnv)
    (hhelp : cliArgs.help = true)
    (hremote : env.isRemoteOrigin = true) (hcfg : env.configFileExists = true)
    (hw : env.writeRes = .ok ()) (hs : env.spawnRes = .ok ())
    (himp : env.childConfigImportOk = true) :
    run cliArgs cwd eng reg0 = .ok ⟨0, [helpText], [], [], [], 0, reg0⟩ ∧
    runWithLoadedConfig cliArgs cwd eng reg0 = .ok ⟨0, [helpText], [], [], [], 0, reg0⟩ ∧
    (main cliArgs env).exitCode = 0 ∧
    (main cliArgs env).configModuleImported = true ∧
    (main cliArgs env).childRun = some ⟨0, [helpText], [], [], [], 0, []⟩ := by
  have h3 : runWithLoadedConfig cliArgs env.cwd env.childEngine [] =
      .ok ⟨0, [helpText], [], [], [], 0, []⟩ := by
    simp [runWithLoadedConfig, hhelp]
  refine ⟨by simp [run, hhelp], by simp [runWithLoadedConfig, hhelp], ?_, ?_, ?_⟩ <;>
    simp [main, hremote, hcfg, hw, hs, himp, h3]

/-- Witness for the amended C8 at a concrete input. -/
theorem c8_help_short_circuit_witness :
    run c8Args "/cwd" c8Engine [] = .ok ⟨0, [helpText], [], [], [], 0, []⟩ ∧
    runWithLoadedConfig c8Args "/cwd" c8Engine [] =
      .ok ⟨0, [helpText], [], [], [], 0, []⟩ ∧
    (main c8Args c8Env).exitCode = 0 ∧
    (main c8Args c8Env).configModuleImported = true ∧
    (main c8Args c8Env).childRun = some ⟨0, [helpText], [], [], [], 0, []⟩ :=
  c8_help_short_circuit c8Args "/cwd" c8Engine [] c8Env rfl rfl rfl rfl rfl rfl

def c9Args : CliArgs :=
  ⟨false, false, false, true, false, none, none, none, none, none, none⟩

def c9Engine : Engine :=
  ⟨.ok ⟨⟨[], [], [], []⟩, [], none⟩, fun _ => .ok ⟨[]⟩, fun _ => .ok ⟨false⟩, fun _ => ""⟩

/-- C9 counterexample: in the preloaded-config (bridge) path, `--list`
with no builder linters and no config plugins prints "No plugins
configured." but returns exit code 1 (src/mod.ts line 374), not 0 as
claimed. -/
theorem c9_counterexample :
    runWithLoadedConfig c9Args "/cwd" c9Engine [] =
      .ok ⟨1, ["\nNo plugins configured."], [], [], [], 1, []⟩ := rfl

/-- C9 (amended): `--list` with no resolvable plugins never crashes and
prints a "no plugins"/"no linters" message in both paths, but the exit
codes differ: the in-process path exits 0 in both the no-plugins and
the zero-discovered-linters cases, while the preloaded-config (bridge)
path exits 1 in the no-plugins case and 0 in the zero-discovered-
linters case. -/
theorem c9_list_no_plugins (cliArgs : CliArgs) (cwd : String)
    (engA engB : Engine) (reg0 : List BaseLinter) (lrA lrB : LoadResult)
    (hhelp : cliArgs.help = false) (hlist : cliArgs.list = true)
    (hloadA : engA.loadConfig = .ok lrA)
    (hbcA : hasBuilderLinters lrA.builderConfig = false)
    (hplA : lrA.config.plugins = [])
    (hloadB : engB.loadConfig = .ok lrB)
    (hbcB : hasBuilderLinters lrB.builderConfig = false)
    (hplB : lrB.config.plugins ≠ [])
    (hdiscB : engB.discoverPlugins lrB.config.plugins = .ok ⟨[]⟩) :
    run cliArgs cwd engA reg0 = .ok ⟨0, noPluginsListLines, [], [], [], 1, reg0⟩ ∧
    run cliArgs cwd engB [] =
      .ok ⟨0, ["\nLoading plugins...", "\nNo linters found in loaded plugins."],
        [], [], [lrB.config.plugins], 1, []⟩ ∧
    runWithLoadedConfig cliArgs cwd engA reg0 =
      .ok ⟨1, ["\nNo plugins configured."], [], [], [], 1, reg0⟩ ∧
    runWithLoadedConfig cliArgs cwd engB [] =
      .ok ⟨0, ["\nLoading plugins...", "\nNo linters found in loaded plugins."],
        [], [], [lrB.config.plugins], 1, []⟩ := by
  have hlenB : lrB.config.plugins.length > 0 := List.length_pos.mpr hplB
  refine ⟨?_, ?_, ?_, ?_⟩
  · simp [run, listLinters, hhelp, hlist, hloadA, hbcA, hplA]
  · simp [run, listLinters, hhelp, hlist, hloadB, hbcB, hlenB, hdiscB, renderLinterList]
  · simp [runWithLoadedConfig, hhelp, hlist, hloadA, hbcA, hplA]
  · simp [runWithLoadedConfig, hhelp, hlist, hloadB, hbcB, hlenB, hdiscB, renderLinterList]

def c9wArgs : CliArgs :=
  ⟨false, false, false, true, false, none, none, none, none, none, none⟩

def c9wEngineA : Engine :=
  ⟨.ok ⟨⟨[], [], [], []⟩, [], none⟩, fun _ => .ok ⟨[]⟩, fun _ => .ok ⟨false⟩, fun _ => ""⟩

def c9wEngineB : Engine :=
  ⟨.ok ⟨⟨[], ["pkg-a"], [], []⟩, [], none⟩, fun _ => .ok ⟨[]⟩,
   fun _ => .ok ⟨false⟩, fun _ => ""⟩

/-- Witness for the amended C9 at concrete inputs: one engine with an
empty config, one whose only plugin discovers zero linters. -/
theorem c9_list_no_plugins_witness :
    run c9wArgs "/cwd" c9wEngineA [] = .ok ⟨0, noPluginsListLines, [], [], [], 1, []⟩ ∧
    run c9wArgs "/cwd" c9wEngineB [] =
      .ok ⟨0, ["\nLoading plugins...", "\nNo linters found in loaded plugins."],
        [], [], [["pkg-a"]], 1, []⟩ ∧
    runWithLoadedConfig c9wArgs "/cwd" c9wEngineA [] =
      .ok ⟨1, ["\nNo plugins configured."], [], [], [], 1, []⟩ ∧
    runWithLoadedConfig c9wArgs "/cwd" c9wEngineB [] =
      .ok ⟨0, ["\nLoading plugins...", "\nNo linters found in loaded plugins."],
        [], [], [["pkg-a"]], 1, []⟩ :=
  c9_list_no_plugins c9wArgs "/cwd" c9wEngineA c9wEngineB []
    ⟨⟨[], [], [], []⟩, [], none⟩ ⟨⟨[], ["pkg-a"], [], []⟩, [], none⟩
    rfl rfl rfl rfl rfl rfl rfl (by decide) rfl

/-- Helper for C10: `run` treats `--plugins ""` exactly as an absent
`--plugins` flag (both are falsy everywhere the flag is consulted). -/
theorem run_plugins_empty_flag (args : CliArgs) (cwd : String) (eng : Engine)
    (reg : List BaseLinter) (h : args.plugins = some "") :
    run args cwd eng reg = run { args with plugins := none } cwd eng reg := by
  obtain ⟨a1, a2, a3, a4, a5, a6, a7, a8, a9, a10, a11⟩ := args
  simp only at h
  subst h
  simp [run, hasStringPlugins, resolvePlugins, verboseHeader, buildOptions,
    catchErrLines, strOptTruthy]

/-- C10: a non-empty `--plugins` value is comma-split with empty entries
kept, so a value like `","` passes the has-plugins check (even with an
empty config plugin list, no "No plugins configured" error) and the
engine receives the empty-string specifiers; while `--plugins` given
the empty string behaves exactly as if the flag were absent. -/
theorem c10_plugins_empty_entries (cliArgs : CliArgs) (cwd : String) (eng : Engine)
    (reg0 : List BaseLinter) (lr : LoadResult) (s : String)
    (args2 : CliArgs) (cwd2 : String) (eng2 : Engine) (reg2 : List BaseLinter)
    (hhelp : cliArgs.help = false) (hlist : cliArgs.list = false)
    (hload : eng.loadConfig = .ok lr)
    (hbc : hasBuilderLinters lr.builderConfig = false)
    (hcfg : lr.config.plugins = [])
    (hp : cliArgs.plugins = some s) (hs : s ≠ "")
    (h2 : args2.plugins = some "") :
    (∃ r, run cliArgs cwd eng reg0 = .ok r ∧
      ∃ o, r.engineCalls = [o] ∧ o.plugins = splitTrim s) ∧
    splitTrim "," = ["", ""] ∧
    run args2 cwd2 eng2 reg2 = run { args2 with plugins := none } cwd2 eng2 reg2 := by
  have htr : strOptTruthy cliArgs.plugins = true := by
    rw [hp]; simp [strOptTruthy, beq_eq_false_iff_ne.mpr hs]
  have htr' : strOptTruthy (some s) = true := hp ▸ htr
  refine ⟨?_, by decide, run_plugins_empty_flag args2 cwd2 eng2 reg2 h2⟩
  obtain ⟨r, hr, hcalls, -, -, -⟩ :=
    run_engine_options cliArgs cwd eng reg0 lr hhelp hlist hload
      (by simp [hasStringPlugins, htr])
  refine ⟨r, hr, _, hcalls, ?_⟩
  simp [buildOptions, hbc, resolvePlugins, htr, hp, htr']

def c10Args : CliArgs :=
  ⟨false, false, false, false, false, none, none, none, none, none, some ","⟩

def c10Args2 : CliArgs :=
  ⟨false, false, false, false, false, none, none, none, none, none, some ""⟩

def c10Engine : Engine :=
  ⟨.ok ⟨⟨[], [], [], []⟩, [], none⟩, fun _ => .ok ⟨[]⟩, fun _ => .ok ⟨false⟩, fun _ => ""⟩

/-- Witness for C10 at concrete inputs: `--plugins ","` against an
empty config, and `--plugins ""` compared with the flag absent. -/
theorem c10_plugins_empty_entries_witness :
    (∃ r, run c10Args "/cwd" c10Engine [] = .ok r ∧
      ∃ o, r.engineCalls = [o] ∧ o.plugins = splitTrim ",") ∧
    splitTrim "," = ["", ""] ∧
    run c10Args2 "/cwd" c10Engine [] =
      run { c10Args2 with plugins := none } "/cwd" c10Engine [] :=
  c10_plugins_empty_entries c10Args "/cwd" c10Engine [] ⟨⟨[], [], [], []⟩, [], none⟩
    "," c10Args2 "/cwd" c10Engine [] rfl rfl rfl rfl rfl rfl (by decide) rfl

end ViolaCli
